import Mathlib

/-!
Shallow embedding of the Review ORM class (src/lib/review.py).

The Python class keeps three pieces of process-wide mutable state: the
reviews table (SQL rows), the class-level identity cache `Review.all`
(a dict from row id to the live instance), and the Python heap of
Review instances.  We model all of this explicitly:

* a Review instance is a `ReviewObj` record whose attributes are
  `Option`-valued (`none` = the underscore attribute was never assigned);
* the heap is a `List ReviewObj`; an object identity (a Python reference)
  is its index `Ref` into that list;
* the identity cache is an insertion-ordered association list from dict
  key (`Option Int`, since `self.id` can be `None`) to `Ref`, with the
  usual dict semantics (overwrite in place, append new keys);
* the table is a `List Row`; row ids are assigned as in SQLite
  (`INTEGER PRIMARY KEY`: one more than the current maximum id);
* dynamically typed Python values flowing into the setters and stored in
  the table columns are `PyVal`;
* exceptions are `Except Err`; every operation returns
  `Except Err result × S`, threading the state also on error, because a
  raised exception does not roll back mutations already performed.

The stray indentation of the `@property` decorator above the `employee`
getter in review.py (line 45) is, as the repository documentation itself notes, a
defect of one of the two duplicated copies; `employee` is modelled as the
property it is evidently meant to be.

Python `ValueError` (the ValidationError of the spec) and `AttributeError`
are kept apart in `Err`.
-/

inductive Err where
  | valueError (msg : String)
  | attributeError (msg : String)
deriving DecidableEq, Repr

/-- An Employee instance, as seen by review.py: only its `id` attribute is
read (nullable until persisted). -/
structure Employee where
  id : Option Int
deriving DecidableEq, Repr

/-- Modelled from the spec: the external Employee Repository collaborator
(`employee.py`, not part of src/) must expose
`find_by_id(id) -> Employee | absent`.  We model its persisted state as the
list of persisted employee ids; `find_by_id` returns the persisted Employee
with that id, or `none`. -/
def Employee.find_by_id (emps : List Int) (i : Int) : Option Employee :=
  if i ∈ emps then some { id := some i } else none

/-- A dynamically typed Python value, as far as review.py inspects values:
an `int`, a `str`, an `Employee` instance, or `None` (also what a NULL
column or an unconstrained SQLite column can hold). -/
inductive PyVal where
  | int (n : Int)
  | str (s : String)
  | emp (e : Employee)
  | pynone
deriving DecidableEq, Repr

/-- The value stored in the `employee_id` column by INSERT/UPDATE:
`self.employee.id`, which is NULL when the id is absent. -/
def idVal : Option Int → PyVal
  | some n => PyVal.int n
  | none => PyVal.pynone

/-- The Python value of an `Employee | None` lookup result. -/
def empVal : Option Employee → PyVal
  | some e => PyVal.emp e
  | none => PyVal.pynone

/-- `Employee.find_by_id` applied to a raw column value (as in
`instance_from_db`): a SQL lookup keyed by a non-integer or NULL value
matches no employee row. -/
def Employee.find_by_id_val (emps : List Int) (v : PyVal) : Option Employee :=
  match v with
  | PyVal.int n => Employee.find_by_id emps n
  | _ => none

/-- A Review instance: the four attributes set by `__init__` and the
setters.  `none` in `year`/`summary`/`employee` means the underscore
attribute was never assigned (reading it raises AttributeError). -/
structure ReviewObj where
  id : Option Int
  year : Option Int
  summary : Option String
  employee : Option Employee
deriving DecidableEq, Repr

instance : Inhabited ReviewObj := ⟨⟨none, none, none, none⟩⟩

/-- The `employee_id` property getter:
`self.employee.id if hasattr(self, "_employee") and self._employee else None`. -/
def ReviewObj.employeeId (o : ReviewObj) : Option Int :=
  match o.employee with
  | some e => e.id
  | none => none

/-- The `year` property setter:
raise unless `isinstance(value, int) and value >= 2000`. -/
def setYear (o : ReviewObj) (v : PyVal) : Except Err ReviewObj :=
  match v with
  | PyVal.int n =>
    if n < 2000 then Except.error (Err.valueError "year must be an integer >= 2000")
    else Except.ok { o with year := some n }
  | _ => Except.error (Err.valueError "year must be an integer >= 2000")

/-- Python `value.strip()` (no argument): remove leading and trailing
whitespace.  Implemented by structural recursion on the character list so
that the kernel can evaluate it (`String.trim`, which computes the same
characters, is defined by well-founded recursion). -/
def pyStrip (s : String) : String :=
  String.mk (((s.data.dropWhile Char.isWhitespace).reverse.dropWhile
    Char.isWhitespace).reverse)

/-- The `summary` property setter:
raise unless `isinstance(value, str) and len(value.strip()) != 0`;
stores the value untrimmed. -/
def setSummary (o : ReviewObj) (v : PyVal) : Except Err ReviewObj :=
  match v with
  | PyVal.str t =>
    if (pyStrip t).length = 0 then
      Except.error (Err.valueError "summary must be a non-empty string")
    else Except.ok { o with summary := some t }
  | _ => Except.error (Err.valueError "summary must be a non-empty string")

/-- The `employee` property setter: accepts an Employee instance with a
non-null id, or an integer id that `Employee.find_by_id` resolves;
anything else raises. -/
def setEmployee (emps : List Int) (o : ReviewObj) (v : PyVal) : Except Err ReviewObj :=
  match v with
  | PyVal.emp e =>
    match e.id with
    | none => Except.error (Err.valueError "employee must be persisted before assigning to review")
    | some _ => Except.ok { o with employee := some e }
  | PyVal.int n =>
    match Employee.find_by_id emps n with
    | none => Except.error (Err.valueError "employee must be persisted before assigning to review")
    | some e => Except.ok { o with employee := some e }
  | _ => Except.error (Err.valueError "employee must be an Employee instance")

/-- The `employee_id` property setter: requires an integer, resolves it via
`Employee.find_by_id`, then assigns the resolved Employee through the
`employee` setter (`self.employee = employee`). -/
def setEmployeeId (emps : List Int) (o : ReviewObj) (v : PyVal) : Except Err ReviewObj :=
  match v with
  | PyVal.int n =>
    match Employee.find_by_id emps n with
    | none => Except.error (Err.valueError "employee_id must refer to a persisted Employee")
    | some e => setEmployee emps o (PyVal.emp e)
  | _ => Except.error (Err.valueError "employee_id must be an integer")

/-- A row of the `reviews` table: `(id, year, summary, employee_id)`.
The non-key columns are unconstrained by SQLite, hence `PyVal`. -/
structure Row where
  id : Int
  year : PyVal
  summary : PyVal
  employee_id : PyVal
deriving DecidableEq, Repr

/-- A Python object reference: an index into the heap. -/
abbrev Ref := Nat

/-- The class-level dict `Review.all`, keyed by `self.id` (which delete can
set to `None`, so keys are `Option Int`), insertion ordered. -/
abbrev Cache := List (Option Int × Ref)

/-- Dict lookup `all.get(k)`. -/
def dictGet (c : Cache) (k : Option Int) : Option Ref :=
  (c.find? (fun p => p.1 == k)).map (fun p => p.2)

/-- Dict assignment `all[k] = v`: overwrite in place if the key is present,
otherwise append. -/
def dictSet (c : Cache) (k : Option Int) (v : Ref) : Cache :=
  if c.any (fun p => p.1 == k) then
    c.map (fun p => if p.1 == k then (k, v) else p)
  else c ++ [(k, v)]

/-- Dict deletion `del all[k]` (guarded by `k in all`, so deleting an
absent key is a no-op). -/
def dictDel (c : Cache) (k : Option Int) : Cache :=
  c.filter (fun p => !(p.1 == k))

/-- The whole mutable state: the `reviews` table, the Python heap of
Review instances, the identity cache `Review.all`, and the (external)
set of persisted employee ids. -/
structure S where
  rows : List Row
  heap : List ReviewObj
  cache : Cache
  emps : List Int
deriving DecidableEq, Repr

/-- Dereference a Review object. -/
def S.get (s : S) (r : Ref) : ReviewObj := s.heap.getD r default

/-- Mutate a Review object in place. -/
def S.setObj (s : S) (r : Ref) (o : ReviewObj) : S :=
  { s with heap := s.heap.set r o }

/-- Allocate a fresh Review object; its reference is the old heap length. -/
def S.alloc (s : S) (o : ReviewObj) : Ref × S :=
  (s.heap.length, { s with heap := s.heap ++ [o] })

/-- The largest row id currently in the table (0 when empty). -/
def maxId (rows : List Row) : Int :=
  rows.foldr (fun row m => max row.id m) 0

/-- The rowid SQLite assigns to the next INSERT (`INTEGER PRIMARY KEY`
with no explicit id: one more than the current maximum). -/
def nextRowId (rows : List Row) : Int := maxId rows + 1

/-- Attribute assignment `review.year = v` on a heap object: the setter
validates first, so on error nothing is mutated. -/
def assignYear (s : S) (r : Ref) (v : PyVal) : Except Err Unit × S :=
  match setYear (s.get r) v with
  | Except.error e => (Except.error e, s)
  | Except.ok o => (Except.ok (), s.setObj r o)

/-- Attribute assignment `review.summary = v` on a heap object. -/
def assignSummary (s : S) (r : Ref) (v : PyVal) : Except Err Unit × S :=
  match setSummary (s.get r) v with
  | Except.error e => (Except.error e, s)
  | Except.ok o => (Except.ok (), s.setObj r o)

/-- Attribute assignment `review.employee = v` on a heap object. -/
def assignEmployee (s : S) (r : Ref) (v : PyVal) : Except Err Unit × S :=
  match setEmployee s.emps (s.get r) v with
  | Except.error e => (Except.error e, s)
  | Except.ok o => (Except.ok (), s.setObj r o)

/-- Attribute assignment `review.employee_id = v` on a heap object. -/
def assignEmployeeId (s : S) (r : Ref) (v : PyVal) : Except Err Unit × S :=
  match setEmployeeId s.emps (s.get r) v with
  | Except.error e => (Except.error e, s)
  | Except.ok o => (Except.ok (), s.setObj r o)

/-- `Review(year, summary, employee, id=id)`: allocate the object, store
`self.id = id` (a plain attribute, unvalidated), then run the `year`,
`summary` and `employee` setters in order.  A setter that raises leaves
the partially initialised object on the heap and propagates the error. -/
def Review.init (s : S) (year summary employee : PyVal) (id : Option Int) :
    Except Err Ref × S :=
  let p := s.alloc { id := id, year := none, summary := none, employee := none }
  let r := p.1
  match assignYear p.2 r year with
  | (Except.error e, s2) => (Except.error e, s2)
  | (Except.ok _, s2) =>
    match assignSummary s2 r summary with
    | (Except.error e, s3) => (Except.error e, s3)
    | (Except.ok _, s3) =>
      match assignEmployee s3 r employee with
      | (Except.error e, s4) => (Except.error e, s4)
      | (Except.ok _, s4) => (Except.ok r, s4)

/-- `update()`: UPDATE the row whose id equals `self.id` (a NULL id
matches no row) with the current `year`, `summary`, `employee.id`,
then re-register `all[self.id] = self`.  Reading an unassigned attribute
raises AttributeError. -/
def Review.update (s : S) (r : Ref) : Except Err Unit × S :=
  let o := s.get r
  match o.year, o.summary, o.employee with
  | some y, some sm, some e =>
    let rows2 := s.rows.map (fun row =>
      if o.id = some row.id then
        { row with year := PyVal.int y, summary := PyVal.str sm,
                   employee_id := idVal e.id }
      else row)
    (Except.ok (), { s with rows := rows2, cache := dictSet s.cache o.id r })
  | _, _, _ => (Except.error (Err.attributeError "review attribute not set"), s)

/-- `save()`: with no id, INSERT `(year, summary, employee.id)`, set
`self.id` to the generated rowid and register `all[self.id] = self`;
with an id, delegate to `update()`.  Returns `self`. -/
def Review.save (s : S) (r : Ref) : Except Err Ref × S :=
  let o := s.get r
  match o.id with
  | none =>
    match o.year, o.summary, o.employee with
    | some y, some sm, some e =>
      let i := nextRowId s.rows
      let s1 : S := { s with rows := s.rows ++
        [{ id := i, year := PyVal.int y, summary := PyVal.str sm,
           employee_id := idVal e.id }] }
      let s2 := s1.setObj r { o with id := some i }
      (Except.ok r, { s2 with cache := dictSet s2.cache (some i) r })
    | _, _, _ => (Except.error (Err.attributeError "review attribute not set"), s)
  | some _ =>
    match Review.update s r with
    | (Except.error e, s1) => (Except.error e, s1)
    | (Except.ok _, s1) => (Except.ok r, s1)

/-- `Review.create(year, summary, employee_id)`: resolve the employee id
(raise if unresolved), construct the instance, save it, return it. -/
def Review.create (s : S) (year summary : PyVal) (employee_id : Int) :
    Except Err Ref × S :=
  match Employee.find_by_id s.emps employee_id with
  | none => (Except.error (Err.valueError "employee_id must refer to a persisted Employee"), s)
  | some e =>
    match Review.init s year summary (PyVal.emp e) none with
    | (Except.error er, s1) => (Except.error er, s1)
    | (Except.ok r, s1) =>
      match Review.save s1 r with
      | (Except.error er, s2) => (Except.error er, s2)
      | (Except.ok _, s2) => (Except.ok r, s2)

/-- `instance_from_db(row)`: look the row id up in `Review.all` and resolve
the employee_id of the row; if an instance is cached, refresh its `year`,
`summary` and `employee` in place through the setters (each assignment
sticks even if a later one raises); otherwise construct a new instance
with the values of the row and register it in the cache. -/
def Review.instance_from_db (s : S) (row : Row) : Except Err Ref × S :=
  let cached := dictGet s.cache (some row.id)
  let employee := Employee.find_by_id_val s.emps row.employee_id
  match cached with
  | some r =>
    match assignYear s r row.year with
    | (Except.error e, s1) => (Except.error e, s1)
    | (Except.ok _, s1) =>
      match assignSummary s1 r row.summary with
      | (Except.error e, s2) => (Except.error e, s2)
      | (Except.ok _, s2) =>
        match assignEmployee s2 r (empVal employee) with
        | (Except.error e, s3) => (Except.error e, s3)
        | (Except.ok _, s3) => (Except.ok r, s3)
  | none =>
    match Review.init s row.year row.summary (empVal employee) (some row.id) with
    | (Except.error e, s1) => (Except.error e, s1)
    | (Except.ok r, s1) => (Except.ok r, { s1 with cache := dictSet s1.cache (some row.id) r })

/-- `Review.find_by_id(id)`: SELECT the first row with that id; hydrate it
if found, return `None` otherwise. -/
def Review.find_by_id (s : S) (i : Int) : Except Err (Option Ref) × S :=
  match s.rows.find? (fun row => row.id == i) with
  | some row =>
    match Review.instance_from_db s row with
    | (Except.error e, s1) => (Except.error e, s1)
    | (Except.ok r, s1) => (Except.ok (some r), s1)
  | none => (Except.ok none, s)

/-- `delete()`: DELETE the rows whose id equals `self.id` (none when it is
NULL), remove `self.id` from the cache if present, then set
`self.id = None`.  Never raises. -/
def Review.delete (s : S) (r : Ref) : S :=
  let o := s.get r
  let s1 : S := { s with rows := s.rows.filter (fun row => !(some row.id == o.id)),
                         cache := dictDel s.cache o.id }
  s1.setObj r { o with id := none }

/-- Hydrate a list of fetched rows in order, stopping at the first raised
exception (the list comprehension in `get_all`). -/
def hydrateAll (s : S) : List Row → Except Err (List Ref) × S
  | [] => (Except.ok [], s)
  | row :: rest =>
    match Review.instance_from_db s row with
    | (Except.error e, s1) => (Except.error e, s1)
    | (Except.ok r, s1) =>
      match hydrateAll s1 rest with
      | (Except.error e, s2) => (Except.error e, s2)
      | (Except.ok rs, s2) => (Except.ok (r :: rs), s2)

/-- `Review.get_all()`: fetch every row and hydrate each in order. -/
def Review.get_all (s : S) : Except Err (List Ref) × S :=
  hydrateAll s s.rows

/-- Acceptance condition of the `year` setter, as the code checks it. -/
def yearOk (v : PyVal) : Bool :=
  match v with
  | PyVal.int n => !(n < 2000 : Bool)
  | _ => false

/-- Acceptance condition of the `summary` setter, as the code checks it. -/
def summaryOk (v : PyVal) : Bool :=
  match v with
  | PyVal.str t => !((pyStrip t).length = 0 : Bool)
  | _ => false

/-- A small concrete state used by the witnesses: employee 5 persisted,
one review row with id 1, hydrated as heap object 0. -/
def demoS : S :=
  { rows := [{ id := 1, year := PyVal.int 2022, summary := PyVal.str "Solid year",
               employee_id := PyVal.int 5 }],
    heap := [{ id := some 1, year := some 2022, summary := some "Solid year",
               employee := some { id := some 5 } }],
    cache := [(some 1, 0)],
    emps := [5] }

/-- The demo review, detached (id erased), for the C3 witness: the first
save takes the insert path, the second the update path. -/
def demoDetached : S :=
  { rows := demoS.rows,
    heap := [{ id := none, year := some 2022, summary := some "Solid year",
               employee := some { id := some 5 } }],
    cache := demoS.cache,
    emps := demoS.emps }

/-- A stored row with an out-of-range year, for the C9 witness. -/
def badRow : Row :=
  { id := 1, year := PyVal.int 1999, summary := PyVal.str "bad year",
    employee_id := PyVal.int 5 }

/-- A state whose table contains `badRow`, for the C9 witness. -/
def badS : S := { rows := [badRow], heap := [], cache := [], emps := [5] }

/-! ### Helper lemmas about lists, the heap and the cache -/

theorem getD_concat_length (l : List α) (a d : α) : (l ++ [a]).getD l.length d = a := by
  induction l with
  | nil => rfl
  | cons x xs ih => simp [ih]

theorem set_concat_length (l : List α) (a b : α) :
    (l ++ [a]).set l.length b = l ++ [b] := by
  induction l with
  | nil => rfl
  | cons x xs ih => simp [ih]

theorem getD_set_self (l : List α) (n : Nat) (a d : α) (h : n < l.length) :
    (l.set n a).getD n d = a := by
  induction l generalizing n with
  | nil => simp at h
  | cons x xs ih =>
    cases n with
    | zero => rfl
    | succ m => simpa using ih m (by simpa using h)

theorem getD_set_ne (l : List α) (m n : Nat) (a d : α) (h : m ≠ n) :
    (l.set n a).getD m d = l.getD m d := by
  induction l generalizing m n with
  | nil => rfl
  | cons x xs ih =>
    cases n with
    | zero =>
      cases m with
      | zero => exact absurd rfl h
      | succ k => rfl
    | succ n1 =>
      cases m with
      | zero => rfl
      | succ k => simpa using ih k n1 (fun hc => h (by simpa using hc))

theorem getD_eq_default (l : List α) (n : Nat) (d : α) (h : l.length ≤ n) :
    l.getD n d = d := by
  induction l generalizing n with
  | nil => cases n <;> rfl
  | cons x xs ih =>
    cases n with
    | zero => simp at h
    | succ m => simpa using ih m (by simpa using h)

theorem find?_append_of_none {p : α → Bool} {l1 l2 : List α} (h : l1.find? p = none) :
    (l1 ++ l2).find? p = l2.find? p := by
  induction l1 with
  | nil => rfl
  | cons x xs ih =>
    cases hx : p x with
    | true =>
      rw [List.find?_cons_of_pos _ hx] at h
      exact absurd h (by simp)
    | false =>
      rw [List.find?_cons_of_neg _ (by simp [hx])] at h
      rw [List.cons_append, List.find?_cons_of_neg _ (by simp [hx])]
      exact ih h

theorem find?_map_overwrite (c : Cache) (k : Option Int) (v : Ref)
    (hmem : c.any (fun p => p.1 == k) = true) :
    (c.map (fun p => if p.1 == k then (k, v) else p)).find? (fun p => p.1 == k)
      = some (k, v) := by
  induction c with
  | nil => simp at hmem
  | cons x xs ih =>
    cases hx : (x.1 == k) with
    | true =>
      rw [List.map_cons, if_pos hx]
      exact List.find?_cons_of_pos _ (by simp)
    | false =>
      rw [List.map_cons, if_neg (by simp [hx])]
      rw [List.find?_cons_of_neg _ (by simp [hx])]
      rw [List.any_cons, hx, Bool.false_or] at hmem
      exact ih hmem

theorem find?_append_single (c : Cache) (k : Option Int) (v : Ref)
    (hmem : c.any (fun p => p.1 == k) = false) :
    (c ++ [(k, v)]).find? (fun p => p.1 == k) = some (k, v) := by
  have hnone : c.find? (fun p => p.1 == k) = none := by
    rw [List.find?_eq_none]
    intro x hx
    intro hpx
    have : c.any (fun p => p.1 == k) = true := List.any_eq_true.mpr ⟨x, hx, hpx⟩
    rw [this] at hmem
    exact absurd hmem (by simp)
  rw [find?_append_of_none hnone]
  exact List.find?_cons_of_pos _ (by simp)

theorem dictGet_set_self (c : Cache) (k : Option Int) (v : Ref) :
    dictGet (dictSet c k v) k = some v := by
  unfold dictSet dictGet
  cases hmem : c.any (fun p => p.1 == k) with
  | true => rw [if_pos rfl, find?_map_overwrite c k v hmem]; rfl
  | false => rw [if_neg (by simp), find?_append_single c k v hmem]; rfl

theorem dictGet_del_self (c : Cache) (k : Option Int) :
    dictGet (dictDel c k) k = none := by
  unfold dictDel dictGet
  induction c with
  | nil => rfl
  | cons x xs ih =>
    by_cases hx : x.1 == k
    · simp [List.filter, hx, ih]
    · have hx2 : (x.1 == k) = false := by simpa using hx
      simp [List.filter, hx2, List.find?, ih]

theorem id_le_maxId (rows : List Row) (row : Row) (h : row ∈ rows) :
    row.id ≤ maxId rows := by
  induction rows with
  | nil => simp at h
  | cons x xs ih =>
    unfold maxId
    rcases List.mem_cons.mp h with h1 | h1
    · subst h1; simp [List.foldr]
    · simp only [List.foldr]
      exact le_trans (ih h1) (le_max_right _ _)

theorem find?_rows_nextRowId (rows : List Row) :
    rows.find? (fun row => row.id == nextRowId rows) = none := by
  rw [List.find?_eq_none]
  intro row hmem
  have h1 : row.id ≤ maxId rows := id_le_maxId rows row hmem
  have h2 : row.id ≠ nextRowId rows := by
    unfold nextRowId; omega
  simpa using h2

theorem init_emp_success_eq (s : S) (y : Int) (sm : String) (e : Employee) (j : Int)
    (id0 : Option Int)
    (hy : ¬ y < 2000) (hsm : ¬ (pyStrip sm).length = 0) (he : e.id = some j) :
    Review.init s (PyVal.int y) (PyVal.str sm) (PyVal.emp e) id0 =
      (Except.ok s.heap.length,
       { s with heap := s.heap ++
          [{ id := id0, year := some y, summary := some sm, employee := some e }] }) := by
  unfold Review.init S.alloc assignYear assignSummary assignEmployee
    setYear setSummary setEmployee S.get S.setObj
  simp [hy, hsm, he, getD_concat_length, set_concat_length]

theorem save_insert_concat_eq (s : S) (h0 : List ReviewObj) (y : Int) (sm : String)
    (e : Employee)
    (hheap : s.heap = h0 ++
      [{ id := none, year := some y, summary := some sm, employee := some e }]) :
    Review.save s h0.length =
      (Except.ok h0.length,
       { rows := s.rows ++ [{ id := nextRowId s.rows, year := PyVal.int y,
                              summary := PyVal.str sm, employee_id := idVal e.id }],
         heap := h0 ++ [{ id := some (nextRowId s.rows), year := some y,
                          summary := some sm, employee := some e }],
         cache := dictSet s.cache (some (nextRowId s.rows)) h0.length,
         emps := s.emps }) := by
  unfold Review.save S.get S.setObj
  simp [hheap, getD_concat_length, set_concat_length]

theorem create_success_eq (s : S) (y : Int) (sm : String) (n : Int)
    (hn : n ∈ s.emps) (hy : ¬ y < 2000) (hsm : ¬ (pyStrip sm).length = 0) :
    Review.create s (PyVal.int y) (PyVal.str sm) n =
      (Except.ok s.heap.length,
       { rows := s.rows ++ [{ id := nextRowId s.rows, year := PyVal.int y,
                              summary := PyVal.str sm, employee_id := PyVal.int n }],
         heap := s.heap ++ [{ id := some (nextRowId s.rows), year := some y,
                              summary := some sm, employee := some { id := some n } }],
         cache := dictSet s.cache (some (nextRowId s.rows)) s.heap.length,
         emps := s.emps }) := by
  unfold Review.create
  rw [show Employee.find_by_id s.emps n = some { id := some n } from by
        simp [Employee.find_by_id, hn]]
  dsimp only
  rw [init_emp_success_eq s y sm { id := some n } n none hy hsm rfl]
  dsimp only
  rw [save_insert_concat_eq
        { rows := s.rows,
          heap := s.heap ++
            [{ id := none, year := some y, summary := some sm,
               employee := some { id := some n } }],
          cache := s.cache, emps := s.emps }
        s.heap y sm { id := some n } rfl]
  dsimp only [idVal]

theorem find_after_create (s : S) (y : Int) (sm : String) (n : Int)
    (hn : n ∈ s.emps) (hy : ¬ y < 2000) (hsm : ¬ (pyStrip sm).length = 0) :
    Review.find_by_id
      { rows := s.rows ++ [{ id := nextRowId s.rows, year := PyVal.int y,
                             summary := PyVal.str sm, employee_id := PyVal.int n }],
        heap := s.heap ++ [{ id := some (nextRowId s.rows), year := some y,
                             summary := some sm, employee := some { id := some n } }],
        cache := dictSet s.cache (some (nextRowId s.rows)) s.heap.length,
        emps := s.emps }
      (nextRowId s.rows) =
    (Except.ok (some s.heap.length),
      { rows := s.rows ++ [{ id := nextRowId s.rows, year := PyVal.int y,
                             summary := PyVal.str sm, employee_id := PyVal.int n }],
        heap := s.heap ++ [{ id := some (nextRowId s.rows), year := some y,
                             summary := some sm, employee := some { id := some n } }],
        cache := dictSet s.cache (some (nextRowId s.rows)) s.heap.length,
        emps := s.emps }) := by
  unfold Review.find_by_id
  dsimp only
  rw [find?_append_of_none (find?_rows_nextRowId s.rows)]
  rw [show List.find? (fun row => row.id == nextRowId s.rows)
        [({ id := nextRowId s.rows, year := PyVal.int y,
            summary := PyVal.str sm, employee_id := PyVal.int n } : Row)] =
      some { id := nextRowId s.rows, year := PyVal.int y,
             summary := PyVal.str sm, employee_id := PyVal.int n } from by simp]
  dsimp only
  unfold Review.instance_from_db
  dsimp only
  rw [dictGet_set_self]
  dsimp only
  unfold assignYear assignSummary assignEmployee setYear setSummary setEmployee
    S.get S.setObj Employee.find_by_id_val Employee.find_by_id empVal
  simp [hy, hsm, hn, getD_concat_length, set_concat_length]

/-- C1: for an employee persisted with (non-null) id `n`, after
`create(y, sm, n)` succeeds with instance `r`, `find_by_id` on the id of `r`
returns the very same in-memory instance `r` (the identity-map property),
whose year, summary and employee id equal the values given to `create`. -/
theorem create_find_by_id_roundtrip (s : S) (y : Int) (sm : String) (n : Int)
    (hn : n ∈ s.emps) (hy : ¬ y < 2000) (hsm : ¬ (pyStrip sm).length = 0) :
    ∃ r i s1,
      Review.create s (PyVal.int y) (PyVal.str sm) n = (Except.ok r, s1) ∧
      (s1.get r).id = some i ∧
      Review.find_by_id s1 i = (Except.ok (some r), s1) ∧
      (s1.get r).year = some y ∧
      (s1.get r).summary = some sm ∧
      (s1.get r).employeeId = some n := by
  refine ⟨s.heap.length, nextRowId s.rows, _,
    create_success_eq s y sm n hn hy hsm, ?_,
    find_after_create s y sm n hn hy hsm, ?_, ?_, ?_⟩
  all_goals simp [S.get, getD_concat_length, ReviewObj.employeeId]

/-- Witness for C1 at a concrete state: employee 5 persisted, empty table. -/
theorem create_find_by_id_roundtrip_witness :
    ((5 : Int) ∈ ([5] : List Int) ∧ ¬ (2023 : Int) < 2000 ∧
      ¬ ((pyStrip "Good work").length = 0)) ∧
    (∃ r i s1,
      Review.create ⟨[], [], [], [5]⟩ (PyVal.int 2023) (PyVal.str "Good work") 5
        = (Except.ok r, s1) ∧
      (s1.get r).id = some i ∧
      Review.find_by_id s1 i = (Except.ok (some r), s1) ∧
      (s1.get r).year = some 2023 ∧
      (s1.get r).summary = some "Good work" ∧
      (s1.get r).employeeId = some 5) :=
  ⟨⟨by decide, by decide, by decide⟩,
   create_find_by_id_roundtrip ⟨[], [], [], [5]⟩ 2023 "Good work" 5
     (by decide) (by decide) (by decide)⟩

theorem get_setObj_self (s : S) (r : Ref) (o : ReviewObj) (hr : r < s.heap.length) :
    (s.setObj r o).get r = o := by
  unfold S.get S.setObj
  exact getD_set_self _ _ _ _ hr

theorem find_by_id_some {emps : List Int} {n : Int} {e : Employee}
    (h : Employee.find_by_id emps n = some e) : e = { id := some n } := by
  unfold Employee.find_by_id at h
  by_cases hn : n ∈ emps
  · rw [if_pos hn] at h; exact (Option.some_inj.mp h).symm
  · rw [if_neg hn] at h; exact absurd h (by simp)

/-- C4: assigning `v` to the `year` of a Review raises ValueError exactly when
`v` is not an integer or is an integer below 2000; on error the whole state
(hence the previously held year) is unchanged; on success the year
attribute equals `v`. -/
theorem year_setter_validation (s : S) (r : Ref) (v : PyVal)
    (hr : r < s.heap.length) :
    ((∃ m, (assignYear s r v).1 = Except.error (Err.valueError m)) ↔
       ¬ ∃ n : Int, v = PyVal.int n ∧ 2000 ≤ n) ∧
    ((∃ m, (assignYear s r v).1 = Except.error (Err.valueError m)) →
       (assignYear s r v).2 = s) ∧
    (∀ n : Int, v = PyVal.int n → 2000 ≤ n →
       (assignYear s r v).1 = Except.ok () ∧
       ((assignYear s r v).2.get r).year = some n) := by
  unfold assignYear setYear
  cases v with
  | int n =>
    by_cases hlt : n < 2000
    · refine ⟨?_, ?_, ?_⟩
      · simp only [hlt, if_pos]
        constructor
        · rintro - ⟨k, hk, hk2⟩
          cases hk
          omega
        · intro h
          exact ⟨_, rfl⟩
      · intro h
        simp [hlt]
      · rintro k hk hk2
        cases hk
        omega
    · refine ⟨?_, ?_, ?_⟩
      · simp only [hlt, if_neg, not_false_iff]
        constructor
        · rintro ⟨m, hm⟩
          simp at hm
        · intro h
          exact absurd ⟨n, rfl, by omega⟩ h
      · rintro ⟨m, hm⟩
        simp [hlt] at hm
      · rintro k hk hk2
        cases hk
        dsimp only
        rw [if_neg hlt]
        refine ⟨rfl, ?_⟩
        rw [get_setObj_self s r _ hr]
  | str t =>
    refine ⟨?_, fun h => rfl, ?_⟩
    · simp
    · rintro k hk
      cases hk
  | emp e =>
    refine ⟨?_, fun h => rfl, ?_⟩
    · simp
    · rintro k hk
      cases hk
  | pynone =>
    refine ⟨?_, fun h => rfl, ?_⟩
    · simp
    · rintro k hk
      cases hk

/-- Witness for C4: assigning year 2023 to the hydrated demo review. -/
theorem year_setter_validation_witness :
    (0 < demoS.heap.length) ∧
    (((∃ m, (assignYear demoS 0 (PyVal.int 2023)).1 = Except.error (Err.valueError m)) ↔
       ¬ ∃ n : Int, PyVal.int 2023 = PyVal.int n ∧ 2000 ≤ n) ∧
     ((∃ m, (assignYear demoS 0 (PyVal.int 2023)).1 = Except.error (Err.valueError m)) →
       (assignYear demoS 0 (PyVal.int 2023)).2 = demoS) ∧
     (∀ n : Int, PyVal.int 2023 = PyVal.int n → 2000 ≤ n →
       (assignYear demoS 0 (PyVal.int 2023)).1 = Except.ok () ∧
       ((assignYear demoS 0 (PyVal.int 2023)).2.get 0).year = some n)) :=
  ⟨by decide, year_setter_validation demoS 0 (PyVal.int 2023) (by decide)⟩

/-- C5: assigning `v` to the `summary` of a Review raises ValueError exactly
when `v` is not a string or strips to the empty string; on error the whole
state (hence the previously held summary) is unchanged; on success the
summary attribute equals `v` untrimmed. -/
theorem summary_setter_validation (s : S) (r : Ref) (v : PyVal)
    (hr : r < s.heap.length) :
    ((∃ m, (assignSummary s r v).1 = Except.error (Err.valueError m)) ↔
       ¬ ∃ t : String, v = PyVal.str t ∧ ¬ (pyStrip t).length = 0) ∧
    ((∃ m, (assignSummary s r v).1 = Except.error (Err.valueError m)) →
       (assignSummary s r v).2 = s) ∧
    (∀ t : String, v = PyVal.str t → ¬ (pyStrip t).length = 0 →
       (assignSummary s r v).1 = Except.ok () ∧
       ((assignSummary s r v).2.get r).summary = some t) := by
  unfold assignSummary setSummary
  cases v with
  | str t =>
    by_cases hb : (pyStrip t).length = 0
    · refine ⟨?_, ?_, ?_⟩
      · simp only [hb, if_pos]
        constructor
        · rintro - ⟨u, hu, hu2⟩
          cases hu
          exact hu2 hb
        · intro h
          exact ⟨_, rfl⟩
      · intro h
        simp [hb]
      · rintro u hu hu2
        cases hu
        exact absurd hb hu2
    · refine ⟨?_, ?_, ?_⟩
      · simp only [hb, if_neg, not_false_iff]
        constructor
        · rintro ⟨m, hm⟩
          simp at hm
        · intro h
          exact absurd ⟨t, rfl, hb⟩ h
      · rintro ⟨m, hm⟩
        simp [hb] at hm
      · rintro u hu hu2
        cases hu
        dsimp only
        rw [if_neg hb]
        refine ⟨rfl, ?_⟩
        rw [get_setObj_self s r _ hr]
  | int n =>
    refine ⟨?_, fun h => rfl, ?_⟩
    · simp
    · rintro u hu
      cases hu
  | emp e =>
    refine ⟨?_, fun h => rfl, ?_⟩
    · simp
    · rintro u hu
      cases hu
  | pynone =>
    refine ⟨?_, fun h => rfl, ?_⟩
    · simp
    · rintro u hu
      cases hu

/-- Witness for C5: assigning an untrimmed but non-blank summary. -/
theorem summary_setter_validation_witness :
    (0 < demoS.heap.length) ∧
    (((∃ m, (assignSummary demoS 0 (PyVal.str " ok ")).1 = Except.error (Err.valueError m)) ↔
       ¬ ∃ t : String, PyVal.str " ok " = PyVal.str t ∧ ¬ (pyStrip t).length = 0) ∧
     ((∃ m, (assignSummary demoS 0 (PyVal.str " ok ")).1 = Except.error (Err.valueError m)) →
       (assignSummary demoS 0 (PyVal.str " ok ")).2 = demoS) ∧
     (∀ t : String, PyVal.str " ok " = PyVal.str t → ¬ (pyStrip t).length = 0 →
       (assignSummary demoS 0 (PyVal.str " ok ")).1 = Except.ok () ∧
       ((assignSummary demoS 0 (PyVal.str " ok ")).2.get 0).summary = some t)) :=
  ⟨by decide, summary_setter_validation demoS 0 (PyVal.str " ok ") (by decide)⟩

/-- C6: assigning to the `employee` of a Review raises ValueError exactly when
the value is an Employee with a null id, an integer resolving to no
persisted Employee, or neither an Employee nor an integer; on success the
attribute holds an Employee with a non-null id, an integer argument being
replaced by the looked-up Employee.  The `employee_id` setter additionally
requires an integer and on success reassigns `employee` to the resolved
Employee. -/
theorem employee_setter_validation (s : S) (r : Ref) (v : PyVal)
    (hr : r < s.heap.length) :
    ((∃ m, (assignEmployee s r v).1 = Except.error (Err.valueError m)) ↔
       ((∃ e, v = PyVal.emp e ∧ e.id = none) ∨
        (∃ n, v = PyVal.int n ∧ Employee.find_by_id s.emps n = none) ∨
        ((∀ e, v ≠ PyVal.emp e) ∧ (∀ n, v ≠ PyVal.int n)))) ∧
    ((assignEmployee s r v).1 = Except.ok () →
       ∃ e, ((assignEmployee s r v).2.get r).employee = some e ∧ e.id ≠ none) ∧
    (∀ n e, v = PyVal.int n → Employee.find_by_id s.emps n = some e →
       (assignEmployee s r v).1 = Except.ok () ∧
       ((assignEmployee s r v).2.get r).employee = some e) ∧
    (∀ v2, (∀ n : Int, v2 ≠ PyVal.int n) →
       ∃ m, (assignEmployeeId s r v2).1 = Except.error (Err.valueError m)) ∧
    (∀ n, Employee.find_by_id s.emps n = none →
       ∃ m, (assignEmployeeId s r (PyVal.int n)).1 = Except.error (Err.valueError m)) ∧
    (∀ n e, Employee.find_by_id s.emps n = some e →
       (assignEmployeeId s r (PyVal.int n)).1 = Except.ok () ∧
       ((assignEmployeeId s r (PyVal.int n)).2.get r).employee = some e) := by
  have hEmpId : ∀ v2, (∀ n : Int, v2 ≠ PyVal.int n) →
      ∃ m, (assignEmployeeId s r v2).1 = Except.error (Err.valueError m) := by
    intro v2 hv2
    unfold assignEmployeeId setEmployeeId
    cases v2 with
    | int n => exact absurd rfl (hv2 n)
    | str t => exact ⟨_, rfl⟩
    | emp e => exact ⟨_, rfl⟩
    | pynone => exact ⟨_, rfl⟩
  have hEmpIdNone : ∀ n, Employee.find_by_id s.emps n = none →
      ∃ m, (assignEmployeeId s r (PyVal.int n)).1 = Except.error (Err.valueError m) := by
    intro n hn
    unfold assignEmployeeId setEmployeeId
    dsimp only
    rw [hn]
    exact ⟨_, rfl⟩
  have hEmpIdSome : ∀ n e, Employee.find_by_id s.emps n = some e →
      (assignEmployeeId s r (PyVal.int n)).1 = Except.ok () ∧
      ((assignEmployeeId s r (PyVal.int n)).2.get r).employee = some e := by
    intro n e hn
    have he : e = { id := some n } := find_by_id_some hn
    subst he
    unfold assignEmployeeId setEmployeeId setEmployee
    dsimp only
    rw [hn]
    dsimp only
    refine ⟨rfl, ?_⟩
    rw [get_setObj_self s r _ hr]
  cases v with
  | emp e =>
    cases he : e.id with
    | none =>
      refine ⟨?_, ?_, ?_, hEmpId, hEmpIdNone, hEmpIdSome⟩
      · constructor
        · intro h
          exact Or.inl ⟨e, rfl, he⟩
        · intro h
          unfold assignEmployee setEmployee
          dsimp only
          rw [he]
          exact ⟨_, rfl⟩
      · unfold assignEmployee setEmployee
        dsimp only
        rw [he]
        intro h
        exact absurd h (by simp)
      · rintro k e2 hk
        cases hk
    | some j =>
      refine ⟨?_, ?_, ?_, hEmpId, hEmpIdNone, hEmpIdSome⟩
      · constructor
        · unfold assignEmployee setEmployee
          dsimp only
          rw [he]
          rintro ⟨m, hm⟩
          simp at hm
        · rintro (⟨e2, he2, hid⟩ | ⟨n, hn, -⟩ | ⟨hne, -⟩)
          · cases he2
            rw [he] at hid
            exact absurd hid (by simp)
          · cases hn
          · exact absurd rfl (hne e)
      · intro h
        unfold assignEmployee setEmployee
        dsimp only
        rw [he]
        dsimp only
        refine ⟨e, ?_, by simp [he]⟩
        rw [get_setObj_self s r _ hr]
      · rintro k e2 hk
        cases hk
  | int n =>
    cases hn : Employee.find_by_id s.emps n with
    | none =>
      refine ⟨?_, ?_, ?_, hEmpId, hEmpIdNone, hEmpIdSome⟩
      · constructor
        · intro h
          exact Or.inr (Or.inl ⟨n, rfl, hn⟩)
        · intro h
          unfold assignEmployee setEmployee
          dsimp only
          rw [hn]
          exact ⟨_, rfl⟩
      · unfold assignEmployee setEmployee
        dsimp only
        rw [hn]
        intro h
        exact absurd h (by simp)
      · rintro k e2 hk hk2
        cases hk
        rw [hn] at hk2
        exact absurd hk2 (by simp)
    | some e =>
      have he : e = { id := some n } := find_by_id_some hn
      subst he
      refine ⟨?_, ?_, ?_, hEmpId, hEmpIdNone, hEmpIdSome⟩
      · constructor
        · unfold assignEmployee setEmployee
          dsimp only
          rw [hn]
          rintro ⟨m, hm⟩
          simp at hm
        · rintro (⟨e2, he2, -⟩ | ⟨k, hk, hk2⟩ | ⟨-, hni⟩)
          · cases he2
          · cases hk
            rw [hn] at hk2
            exact absurd hk2 (by simp)
          · exact absurd rfl (hni n)
      · intro h
        unfold assignEmployee setEmployee
        dsimp only
        rw [hn]
        dsimp only
        refine ⟨{ id := some n }, ?_, by simp⟩
        rw [get_setObj_self s r _ hr]
      · rintro k e2 hk hk2
        cases hk
        rw [hn] at hk2
        cases hk2
        unfold assignEmployee setEmployee
        dsimp only
        rw [hn]
        dsimp only
        refine ⟨rfl, ?_⟩
        rw [get_setObj_self s r _ hr]
  | str t =>
    refine ⟨?_, ?_, ?_, hEmpId, hEmpIdNone, hEmpIdSome⟩
    · constructor
      · intro h
        refine Or.inr (Or.inr ⟨?_, ?_⟩)
        · intro e h2
          cases h2
        · intro n h2
          cases h2
      · intro h
        exact ⟨_, rfl⟩
    · intro h
      exact absurd h (by simp [assignEmployee, setEmployee])
    · rintro k e2 hk
      cases hk
  | pynone =>
    refine ⟨?_, ?_, ?_, hEmpId, hEmpIdNone, hEmpIdSome⟩
    · constructor
      · intro h
        refine Or.inr (Or.inr ⟨?_, ?_⟩)
        · intro e h2
          cases h2
        · intro n h2
          cases h2
      · intro h
        exact ⟨_, rfl⟩
    · intro h
      exact absurd h (by simp [assignEmployee, setEmployee])
    · rintro k e2 hk
      cases hk

/-- Witness for C6: assigning employee id 5 (persisted) to the demo review. -/
theorem employee_setter_validation_witness :
    (0 < demoS.heap.length) ∧
    (((∃ m, (assignEmployee demoS 0 (PyVal.int 5)).1 = Except.error (Err.valueError m)) ↔
       ((∃ e, PyVal.int 5 = PyVal.emp e ∧ e.id = none) ∨
        (∃ n, PyVal.int 5 = PyVal.int n ∧ Employee.find_by_id demoS.emps n = none) ∨
        ((∀ e, PyVal.int 5 ≠ PyVal.emp e) ∧ (∀ n : Int, PyVal.int 5 ≠ PyVal.int n)))) ∧
     ((assignEmployee demoS 0 (PyVal.int 5)).1 = Except.ok () →
       ∃ e, ((assignEmployee demoS 0 (PyVal.int 5)).2.get 0).employee = some e ∧ e.id ≠ none) ∧
     (∀ n e, PyVal.int 5 = PyVal.int n → Employee.find_by_id demoS.emps n = some e →
       (assignEmployee demoS 0 (PyVal.int 5)).1 = Except.ok () ∧
       ((assignEmployee demoS 0 (PyVal.int 5)).2.get 0).employee = some e) ∧
     (∀ v2, (∀ n : Int, v2 ≠ PyVal.int n) →
       ∃ m, (assignEmployeeId demoS 0 v2).1 = Except.error (Err.valueError m)) ∧
     (∀ n, Employee.find_by_id demoS.emps n = none →
       ∃ m, (assignEmployeeId demoS 0 (PyVal.int n)).1 = Except.error (Err.valueError m)) ∧
     (∀ n e, Employee.find_by_id demoS.emps n = some e →
       (assignEmployeeId demoS 0 (PyVal.int n)).1 = Except.ok () ∧
       ((assignEmployeeId demoS 0 (PyVal.int n)).2.get 0).employee = some e)) :=
  ⟨by decide, employee_setter_validation demoS 0 (PyVal.int 5) (by decide)⟩

theorem lt_heap_of_get_year (s : S) (r : Ref) (y : Int)
    (hy : (s.get r).year = some y) : r < s.heap.length := by
  by_contra h
  have hd : s.get r = default := by
    unfold S.get
    exact getD_eq_default _ _ _ (Nat.le_of_not_lt h)
  rw [hd] at hy
  exact absurd hy (by simp [default])

theorem update_eq (s : S) (r : Ref) (y : Int) (sm : String) (e : Employee)
    (hy : (s.get r).year = some y) (hsm : (s.get r).summary = some sm)
    (he : (s.get r).employee = some e) :
    Review.update s r = (Except.ok (),
      { s with
        rows := s.rows.map (fun row =>
          if (s.get r).id = some row.id then
            { row with year := PyVal.int y, summary := PyVal.str sm,
                       employee_id := idVal e.id }
          else row),
        cache := dictSet s.cache (s.get r).id r }) := by
  unfold Review.update
  dsimp only
  rw [hy, hsm, he]

theorem save_insert_eq (s : S) (r : Ref) (y : Int) (sm : String) (e : Employee)
    (hid : (s.get r).id = none) (hy : (s.get r).year = some y)
    (hsm : (s.get r).summary = some sm) (he : (s.get r).employee = some e) :
    Review.save s r = (Except.ok r,
      { rows := s.rows ++ [{ id := nextRowId s.rows, year := PyVal.int y,
                             summary := PyVal.str sm, employee_id := idVal e.id }],
        heap := s.heap.set r { id := some (nextRowId s.rows), year := some y,
                               summary := some sm, employee := some e },
        cache := dictSet s.cache (some (nextRowId s.rows)) r,
        emps := s.emps }) := by
  unfold Review.save
  dsimp only
  rw [hid]
  dsimp only
  rw [hy, hsm, he]
  dsimp only [S.setObj]

theorem save_update_eq (s : S) (r : Ref) (i : Int) (y : Int) (sm : String) (e : Employee)
    (hid : (s.get r).id = some i) (hy : (s.get r).year = some y)
    (hsm : (s.get r).summary = some sm) (he : (s.get r).employee = some e) :
    Review.save s r = (Except.ok r,
      { s with
        rows := s.rows.map (fun row =>
          if (s.get r).id = some row.id then
            { row with year := PyVal.int y, summary := PyVal.str sm,
                       employee_id := idVal e.id }
          else row),
        cache := dictSet s.cache (some i) r }) := by
  unfold Review.save
  dsimp only
  rw [hid]
  dsimp only
  rw [update_eq s r y sm e hy hsm he]
  dsimp only
  rw [hid]

/-- C3: save on an instance with no id inserts exactly one row holding its
year, summary and employee id, sets the instance id to the generated row
id, registers the instance in the cache under that id and returns the
instance; save on an instance with an id only updates (no insert, id
unchanged) and returns the instance — so saving twice creates one row. -/
theorem save_inserts_once (s : S) (r : Ref) (y : Int) (sm : String) (e : Employee)
    (hy : (s.get r).year = some y) (hsm : (s.get r).summary = some sm)
    (he : (s.get r).employee = some e) :
    ((s.get r).id = none →
       ∃ s1, Review.save s r = (Except.ok r, s1) ∧
         s1.rows = s.rows ++ [{ id := nextRowId s.rows, year := PyVal.int y,
                                summary := PyVal.str sm, employee_id := idVal e.id }] ∧
         (s1.get r).id = some (nextRowId s.rows) ∧
         dictGet s1.cache (some (nextRowId s.rows)) = some r ∧
         ∃ s2, Review.save s1 r = (Except.ok r, s2) ∧
           s2.rows.length = s1.rows.length ∧
           (s2.get r).id = some (nextRowId s.rows)) ∧
    (∀ i, (s.get r).id = some i →
       ∃ s1, Review.save s r = (Except.ok r, s1) ∧
         s1.rows.length = s.rows.length ∧ (s1.get r).id = some i) := by
  have hr : r < s.heap.length := lt_heap_of_get_year s r y hy
  constructor
  · intro hid
    have hget1 : S.get
        ⟨s.rows ++ [{ id := nextRowId s.rows, year := PyVal.int y,
                      summary := PyVal.str sm, employee_id := idVal e.id }],
         s.heap.set r { id := some (nextRowId s.rows), year := some y,
                        summary := some sm, employee := some e },
         dictSet s.cache (some (nextRowId s.rows)) r, s.emps⟩ r
        = { id := some (nextRowId s.rows), year := some y,
            summary := some sm, employee := some e } := by
      show (s.heap.set r _).getD r default = _
      exact getD_set_self _ _ _ _ hr
    refine ⟨_, save_insert_eq s r y sm e hid hy hsm he, rfl, ?_,
      dictGet_set_self _ _ _, ?_⟩
    · rw [hget1]
    · refine ⟨_, save_update_eq _ r (nextRowId s.rows) y sm e
        (by rw [hget1]) (by rw [hget1]) (by rw [hget1]) (by rw [hget1]), ?_, ?_⟩
      · exact List.length_map _ _
      · show ((s.heap.set r _).getD r default).id = _
        rw [getD_set_self _ _ _ _ hr]
  · intro i hid
    refine ⟨_, save_update_eq s r i y sm e hid hy hsm he, ?_, ?_⟩
    · exact List.length_map _ _
    · show (s.heap.getD r default).id = some i
      exact hid

/-- Witness for C3 at the detached demo state. -/
theorem save_inserts_once_witness :
    ((demoDetached.get 0).year = some 2022 ∧
     (demoDetached.get 0).summary = some "Solid year" ∧
     (demoDetached.get 0).employee = some { id := some 5 }) ∧
    (((demoDetached.get 0).id = none →
       ∃ s1, Review.save demoDetached 0 = (Except.ok 0, s1) ∧
         s1.rows = demoDetached.rows ++
           [{ id := nextRowId demoDetached.rows, year := PyVal.int 2022,
              summary := PyVal.str "Solid year",
              employee_id := idVal (Employee.mk (some 5)).id }] ∧
         (s1.get 0).id = some (nextRowId demoDetached.rows) ∧
         dictGet s1.cache (some (nextRowId demoDetached.rows)) = some 0 ∧
         ∃ s2, Review.save s1 0 = (Except.ok 0, s2) ∧
           s2.rows.length = s1.rows.length ∧
           (s2.get 0).id = some (nextRowId demoDetached.rows)) ∧
     (∀ i, (demoDetached.get 0).id = some i →
       ∃ s1, Review.save demoDetached 0 = (Except.ok 0, s1) ∧
         s1.rows.length = demoDetached.rows.length ∧ (s1.get 0).id = some i)) :=
  ⟨⟨by decide, by decide, by decide⟩,
   save_inserts_once demoDetached 0 2022 "Solid year" { id := some 5 }
     (by decide) (by decide) (by decide)⟩

/-- C7: create raises ValueError when the employee id resolves to no
persisted Employee, and in that failing case the whole state — in
particular the rows and the identity cache — is unchanged; when
resolution succeeds and the fields are valid, create constructs a new
instance, saves it (one row appended, the instance cached under the new
row id) and returns it. -/
theorem create_validates_employee (s : S) (y : Int) (sm : String) (n : Int) :
    (Employee.find_by_id s.emps n = none →
       Review.create s (PyVal.int y) (PyVal.str sm) n =
         (Except.error
           (Err.valueError "employee_id must refer to a persisted Employee"), s)) ∧
    (n ∈ s.emps → ¬ y < 2000 → ¬ (pyStrip sm).length = 0 →
       ∃ r s1, Review.create s (PyVal.int y) (PyVal.str sm) n = (Except.ok r, s1) ∧
         r = s.heap.length ∧
         s1.rows = s.rows ++ [{ id := nextRowId s.rows, year := PyVal.int y,
                                summary := PyVal.str sm, employee_id := PyVal.int n }] ∧
         (s1.get r).id = some (nextRowId s.rows) ∧
         dictGet s1.cache (some (nextRowId s.rows)) = some r) := by
  constructor
  · intro hn
    unfold Review.create
    rw [hn]
  · intro hn hy hsm
    refine ⟨s.heap.length, _, create_success_eq s y sm n hn hy hsm, rfl, rfl, ?_,
      dictGet_set_self _ _ _⟩
    show ((s.heap ++ [_]).getD s.heap.length default).id = _
    rw [getD_concat_length]

/-- Witness for C7: employee 7 is not persisted in the demo state (failure
branch at id 7), employee 5 is (success branch at id 5). -/
theorem create_validates_employee_witness :
    (Employee.find_by_id demoS.emps 7 = none ∧
      Review.create demoS (PyVal.int 2023) (PyVal.str "x") 7 =
        (Except.error
          (Err.valueError "employee_id must refer to a persisted Employee"), demoS)) ∧
    (((5 : Int) ∈ demoS.emps ∧ ¬ (2023 : Int) < 2000 ∧ ¬ (pyStrip "x").length = 0) ∧
      ∃ r s1, Review.create demoS (PyVal.int 2023) (PyVal.str "x") 5 =
          (Except.ok r, s1) ∧
        r = demoS.heap.length ∧
        s1.rows = demoS.rows ++ [{ id := nextRowId demoS.rows, year := PyVal.int 2023,
                                   summary := PyVal.str "x",
                                   employee_id := PyVal.int 5 }] ∧
        (s1.get r).id = some (nextRowId demoS.rows) ∧
        dictGet s1.cache (some (nextRowId demoS.rows)) = some r) :=
  ⟨⟨by decide, (create_validates_employee demoS 2023 "x" 7).1 (by decide)⟩,
   ⟨⟨by decide, by decide, by decide⟩,
    (create_validates_employee demoS 2023 "x" 5).2 (by decide) (by decide) (by decide)⟩⟩

/-- C8: delete on a persisted Review removes exactly the rows matching the
id of the instance, removes that id from the identity cache, and clears the
instance id, while leaving year, summary and employee unchanged;
afterwards `find_by_id` on the old id returns absent (and no remaining row
carries it, so `get_all` cannot hydrate it), and saving the detached
instance again performs a fresh insert. -/
theorem delete_detaches (s : S) (r : Ref) (i : Int)
    (hid : (s.get r).id = some i) (hr : r < s.heap.length) :
    Review.delete s r =
      ⟨s.rows.filter (fun row => !(some row.id == some i)),
       s.heap.set r { s.get r with id := none },
       dictDel s.cache (some i), s.emps⟩ ∧
    (∀ row, row ∈ (Review.delete s r).rows → ¬ row.id = i) ∧
    dictGet (Review.delete s r).cache (some i) = none ∧
    ((Review.delete s r).get r).id = none ∧
    ((Review.delete s r).get r).year = (s.get r).year ∧
    ((Review.delete s r).get r).summary = (s.get r).summary ∧
    ((Review.delete s r).get r).employee = (s.get r).employee ∧
    Review.find_by_id (Review.delete s r) i = (Except.ok none, Review.delete s r) ∧
    (∀ y sm e, (s.get r).year = some y → (s.get r).summary = some sm →
       (s.get r).employee = some e →
       ∃ s2, Review.save (Review.delete s r) r = (Except.ok r, s2) ∧
         s2.rows.length = (Review.delete s r).rows.length + 1) := by
  have hdel : Review.delete s r =
      ⟨s.rows.filter (fun row => !(some row.id == some i)),
       s.heap.set r { s.get r with id := none },
       dictDel s.cache (some i), s.emps⟩ := by
    unfold Review.delete S.setObj
    dsimp only
    rw [hid]
  have hget2 : S.get
      ⟨s.rows.filter (fun row => !(some row.id == some i)),
       s.heap.set r { s.get r with id := none },
       dictDel s.cache (some i), s.emps⟩ r = { s.get r with id := none } := by
    show (s.heap.set r _).getD r default = _
    exact getD_set_self _ _ _ _ hr
  have hmem : ∀ row : Row,
      row ∈ s.rows.filter (fun row => !(some row.id == some i)) → ¬ row.id = i := by
    intro row hrow hcontra
    have h2 := (List.mem_filter.mp hrow).2
    subst hcontra
    simp at h2
  rw [hdel]
  refine ⟨rfl, hmem, dictGet_del_self _ _, ?_, ?_, ?_, ?_, ?_, ?_⟩
  · rw [hget2]
  · rw [hget2]
  · rw [hget2]
  · rw [hget2]
  · unfold Review.find_by_id
    dsimp only
    rw [show (s.rows.filter (fun row => !(some row.id == some i))).find?
          (fun row => row.id == i) = none from ?_]
    · rw [List.find?_eq_none]
      intro row hrow
      have h2 := hmem row hrow
      simpa using h2
  · intro y sm e hy hsm he
    refine ⟨_, save_insert_eq _ r y sm e (by rw [hget2]) ?_ ?_ ?_, by simp⟩
    · rw [hget2]
      dsimp only
      exact hy
    · rw [hget2]
      dsimp only
      exact hsm
    · rw [hget2]
      dsimp only
      exact he

/-- Witness for C8: deleting the hydrated demo review (row id 1). -/
theorem delete_detaches_witness :
    ((demoS.get 0).id = some 1 ∧ 0 < demoS.heap.length) ∧
    (Review.delete demoS 0 =
      ⟨demoS.rows.filter (fun row => !(some row.id == some 1)),
       demoS.heap.set 0 { demoS.get 0 with id := none },
       dictDel demoS.cache (some 1), demoS.emps⟩ ∧
     (∀ row, row ∈ (Review.delete demoS 0).rows → ¬ row.id = 1) ∧
     dictGet (Review.delete demoS 0).cache (some 1) = none ∧
     ((Review.delete demoS 0).get 0).id = none ∧
     ((Review.delete demoS 0).get 0).year = (demoS.get 0).year ∧
     ((Review.delete demoS 0).get 0).summary = (demoS.get 0).summary ∧
     ((Review.delete demoS 0).get 0).employee = (demoS.get 0).employee ∧
     Review.find_by_id (Review.delete demoS 0) 1 =
       (Except.ok none, Review.delete demoS 0) ∧
     (∀ y sm e, (demoS.get 0).year = some y → (demoS.get 0).summary = some sm →
       (demoS.get 0).employee = some e →
       ∃ s2, Review.save (Review.delete demoS 0) 0 = (Except.ok 0, s2) ∧
         s2.rows.length = (Review.delete demoS 0).rows.length + 1)) :=
  ⟨⟨by decide, by decide⟩, delete_detaches demoS 0 1 (by decide) (by decide)⟩

theorem assignYear_cases (s : S) (r : Ref) (v : PyVal) :
    (∃ e, assignYear s r v = (Except.error e, s)) ∨
    (∃ o, assignYear s r v = (Except.ok (), s.setObj r o)) := by
  unfold assignYear
  cases setYear (s.get r) v with
  | error e => exact Or.inl ⟨e, rfl⟩
  | ok o => exact Or.inr ⟨o, rfl⟩

theorem assignSummary_cases (s : S) (r : Ref) (v : PyVal) :
    (∃ e, assignSummary s r v = (Except.error e, s)) ∨
    (∃ o, assignSummary s r v = (Except.ok (), s.setObj r o)) := by
  unfold assignSummary
  cases setSummary (s.get r) v with
  | error e => exact Or.inl ⟨e, rfl⟩
  | ok o => exact Or.inr ⟨o, rfl⟩

theorem assignEmployee_cases (s : S) (r : Ref) (v : PyVal) :
    (∃ e, assignEmployee s r v = (Except.error e, s)) ∨
    (∃ o, assignEmployee s r v = (Except.ok (), s.setObj r o)) := by
  unfold assignEmployee
  cases setEmployee s.emps (s.get r) v with
  | error e => exact Or.inl ⟨e, rfl⟩
  | ok o => exact Or.inr ⟨o, rfl⟩

theorem setObj_heap_length (s : S) (r : Ref) (o : ReviewObj) :
    (s.setObj r o).heap.length = s.heap.length := by
  unfold S.setObj
  exact List.length_set _ _ _

theorem setObj_cache (s : S) (r : Ref) (o : ReviewObj) :
    (s.setObj r o).cache = s.cache := rfl

theorem setObj_rows (s : S) (r : Ref) (o : ReviewObj) :
    (s.setObj r o).rows = s.rows := rfl

theorem setObj_emps (s : S) (r : Ref) (o : ReviewObj) :
    (s.setObj r o).emps = s.emps := rfl

theorem ifdb_cached (s : S) (row : Row) (r : Ref)
    (h : dictGet s.cache (some row.id) = some r) :
    ((Review.instance_from_db s row).2).heap.length = s.heap.length ∧
    ((Review.instance_from_db s row).2).cache = s.cache ∧
    (∀ r2, (Review.instance_from_db s row).1 = Except.ok r2 → r2 = r) := by
  unfold Review.instance_from_db
  dsimp only
  rw [h]
  dsimp only
  rcases assignYear_cases s r row.year with ⟨e, hA⟩ | ⟨o1, hA⟩
  · simp [hA]
  · rcases assignSummary_cases (s.setObj r o1) r row.summary with ⟨e, hB⟩ | ⟨o2, hB⟩
    · simp [hA, hB, setObj_heap_length, setObj_cache]
    · rcases assignEmployee_cases ((s.setObj r o1).setObj r o2) r
          (empVal (Employee.find_by_id_val s.emps row.employee_id)) with
        ⟨e, hC⟩ | ⟨o3, hC⟩
      · simp [hA, hB, hC, setObj_heap_length, setObj_cache]
      · simp [hA, hB, hC, setObj_heap_length, setObj_cache, eq_comm]

theorem ifdb_cache_after_ok (t : S) (row : Row) (r1 : Ref)
    (h : (Review.instance_from_db t row).1 = Except.ok r1) :
    dictGet ((Review.instance_from_db t row).2).cache (some row.id) = some r1 := by
  unfold Review.instance_from_db at h ⊢
  dsimp only at h ⊢
  cases hc : dictGet t.cache (some row.id) with
  | some rc =>
    rw [hc] at h
    dsimp only at h ⊢
    rcases assignYear_cases t rc row.year with ⟨e, hA⟩ | ⟨o1, hA⟩ <;>
      simp only [hA] at h ⊢
    · exact absurd h (by simp)
    · rcases assignSummary_cases (t.setObj rc o1) rc row.summary with
        ⟨e, hB⟩ | ⟨o2, hB⟩ <;> simp only [hB] at h ⊢
      · exact absurd h (by simp)
      · rcases assignEmployee_cases ((t.setObj rc o1).setObj rc o2) rc
            (empVal (Employee.find_by_id_val t.emps row.employee_id)) with
          ⟨e, hC⟩ | ⟨o3, hC⟩ <;> simp only [hC] at h ⊢
        · exact absurd h (by simp)
        · have hrc : rc = r1 := by simpa using h
          subst hrc
          simp [setObj_cache, hc]
  | none =>
    rw [hc] at h
    dsimp only at h ⊢
    cases hI : Review.init t row.year row.summary
        (empVal (Employee.find_by_id_val t.emps row.employee_id)) (some row.id) with
    | mk res s1 =>
      simp only [hI] at h ⊢
      cases res with
      | error e => simp at h
      | ok rr =>
        dsimp only at h ⊢
        have hrr : rr = r1 := by simpa using h
        subst hrr
        exact dictGet_set_self _ _ _

/-- C2: the identity cache yields at most one live instance per id:
hydrating a row whose id is already cached returns exactly the cached
instance, allocates no new instance (the heap length is unchanged) and
leaves the cache unchanged — whether the in-place refresh succeeds or
raises — and hydrating the same row twice (as FindById and GetAll do,
through InstanceFromRow) returns the same instance both times. -/
theorem identity_cache_unique (s : S) (row : Row) (r : Ref)
    (h : dictGet s.cache (some row.id) = some r) :
    (∀ r2, (Review.instance_from_db s row).1 = Except.ok r2 → r2 = r) ∧
    ((Review.instance_from_db s row).2).heap.length = s.heap.length ∧
    ((Review.instance_from_db s row).2).cache = s.cache ∧
    (∀ t : S, ∀ r1 r2 : Ref,
       (Review.instance_from_db t row).1 = Except.ok r1 →
       (Review.instance_from_db ((Review.instance_from_db t row).2) row).1
         = Except.ok r2 →
       r2 = r1) := by
  obtain ⟨h1, h2, h3⟩ := ifdb_cached s row r h
  refine ⟨h3, h1, h2, ?_⟩
  intro t r1 r2 hok1 hok2
  have hcache := ifdb_cache_after_ok t row r1 hok1
  obtain ⟨-, -, h3b⟩ := ifdb_cached ((Review.instance_from_db t row).2) row r1 hcache
  exact h3b r2 hok2

/-- Witness for C2: in the demo state, row 1 is cached as instance 0. -/
theorem identity_cache_unique_witness :
    dictGet demoS.cache
      (some ({ id := 1, year := PyVal.int 2022, summary := PyVal.str "Solid year",
               employee_id := PyVal.int 5 } : Row).id) = some 0 ∧
    ((∀ r2, (Review.instance_from_db demoS
        { id := 1, year := PyVal.int 2022, summary := PyVal.str "Solid year",
          employee_id := PyVal.int 5 }).1 = Except.ok r2 → r2 = 0) ∧
     ((Review.instance_from_db demoS
        { id := 1, year := PyVal.int 2022, summary := PyVal.str "Solid year",
          employee_id := PyVal.int 5 }).2).heap.length = demoS.heap.length ∧
     ((Review.instance_from_db demoS
        { id := 1, year := PyVal.int 2022, summary := PyVal.str "Solid year",
          employee_id := PyVal.int 5 }).2).cache = demoS.cache ∧
     (∀ t : S, ∀ r1 r2 : Ref,
       (Review.instance_from_db t
         { id := 1, year := PyVal.int 2022, summary := PyVal.str "Solid year",
           employee_id := PyVal.int 5 }).1 = Except.ok r1 →
       (Review.instance_from_db ((Review.instance_from_db t
           { id := 1, year := PyVal.int 2022, summary := PyVal.str "Solid year",
             employee_id := PyVal.int 5 }).2)
         { id := 1, year := PyVal.int 2022, summary := PyVal.str "Solid year",
           employee_id := PyVal.int 5 }).1 = Except.ok r2 →
       r2 = r1)) :=
  ⟨by decide,
   identity_cache_unique demoS
     { id := 1, year := PyVal.int 2022, summary := PyVal.str "Solid year",
       employee_id := PyVal.int 5 } 0 (by decide)⟩

/-- C10: the in-place refresh of a cached instance is not atomic: when a
id of a row is already cached, the year and summary of the row are valid, but its
employee_id resolves to no persisted Employee, InstanceFromRow raises from
the employee setter after the year and summary of the cached instance have
already been overwritten with the values of the row (its employee alone is left
untouched). -/
theorem refresh_not_atomic (s : S) (row : Row) (r : Ref) (y : Int) (sm : String)
    (hc : dictGet s.cache (some row.id) = some r) (hr : r < s.heap.length)
    (hy : row.year = PyVal.int y) (hy2 : ¬ y < 2000)
    (hsm : row.summary = PyVal.str sm) (hsm2 : ¬ (pyStrip sm).length = 0)
    (hemp : Employee.find_by_id_val s.emps row.employee_id = none) :
    (∃ m, (Review.instance_from_db s row).1 = Except.error (Err.valueError m)) ∧
    (((Review.instance_from_db s row).2).get r).year = some y ∧
    (((Review.instance_from_db s row).2).get r).summary = some sm ∧
    (((Review.instance_from_db s row).2).get r).employee = (s.get r).employee := by
  have hA : assignYear s r (PyVal.int y) =
      (Except.ok (), s.setObj r { s.get r with year := some y }) := by
    unfold assignYear setYear
    dsimp only
    rw [if_neg hy2]
  have hget1 : (s.setObj r { s.get r with year := some y }).get r
      = { s.get r with year := some y } := get_setObj_self s r _ hr
  have hB : assignSummary (s.setObj r { s.get r with year := some y }) r
        (PyVal.str sm) =
      (Except.ok (), (s.setObj r { s.get r with year := some y }).setObj r
        { id := (s.get r).id, year := some y, summary := some sm,
          employee := (s.get r).employee }) := by
    unfold assignSummary setSummary
    rw [hget1]
    dsimp only
    rw [if_neg hsm2]
  have hget2 : ((s.setObj r { s.get r with year := some y }).setObj r
        { id := (s.get r).id, year := some y, summary := some sm,
          employee := (s.get r).employee }).get r
      = { id := (s.get r).id, year := some y, summary := some sm,
          employee := (s.get r).employee } := by
    apply get_setObj_self
    rw [setObj_heap_length]
    exact hr
  have hC : assignEmployee ((s.setObj r { s.get r with year := some y }).setObj r
        { id := (s.get r).id, year := some y, summary := some sm,
          employee := (s.get r).employee }) r PyVal.pynone =
      (Except.error (Err.valueError "employee must be an Employee instance"),
       (s.setObj r { s.get r with year := some y }).setObj r
        { id := (s.get r).id, year := some y, summary := some sm,
          employee := (s.get r).employee }) := by
    unfold assignEmployee setEmployee
    rfl
  unfold Review.instance_from_db
  dsimp only
  rw [hc]
  dsimp only
  rw [hy, hsm, hemp]
  simp only [empVal, hA, hB, hC]
  refine ⟨⟨_, rfl⟩, ?_, ?_, ?_⟩ <;> rw [hget2]

/-- Witness for C10: refreshing cached row 1 from a row whose employee_id 7
is not persisted. -/
theorem refresh_not_atomic_witness :
    (dictGet demoS.cache
       (some ({ id := 1, year := PyVal.int 2024, summary := PyVal.str "new",
                employee_id := PyVal.int 7 } : Row).id) = some 0 ∧
     0 < demoS.heap.length ∧
     ({ id := 1, year := PyVal.int 2024, summary := PyVal.str "new",
        employee_id := PyVal.int 7 } : Row).year = PyVal.int 2024 ∧
     ¬ (2024 : Int) < 2000 ∧
     ({ id := 1, year := PyVal.int 2024, summary := PyVal.str "new",
        employee_id := PyVal.int 7 } : Row).summary = PyVal.str "new" ∧
     ¬ (pyStrip "new").length = 0 ∧
     Employee.find_by_id_val demoS.emps
       ({ id := 1, year := PyVal.int 2024, summary := PyVal.str "new",
          employee_id := PyVal.int 7 } : Row).employee_id = none) ∧
    ((∃ m, (Review.instance_from_db demoS
        { id := 1, year := PyVal.int 2024, summary := PyVal.str "new",
          employee_id := PyVal.int 7 }).1 = Except.error (Err.valueError m)) ∧
     (((Review.instance_from_db demoS
        { id := 1, year := PyVal.int 2024, summary := PyVal.str "new",
          employee_id := PyVal.int 7 }).2).get 0).year = some 2024 ∧
     (((Review.instance_from_db demoS
        { id := 1, year := PyVal.int 2024, summary := PyVal.str "new",
          employee_id := PyVal.int 7 }).2).get 0).summary = some "new" ∧
     (((Review.instance_from_db demoS
        { id := 1, year := PyVal.int 2024, summary := PyVal.str "new",
          employee_id := PyVal.int 7 }).2).get 0).employee = (demoS.get 0).employee) :=
  ⟨⟨by decide, by decide, by decide, by decide, by decide, by decide, by decide⟩,
   refresh_not_atomic demoS
     { id := 1, year := PyVal.int 2024, summary := PyVal.str "new",
       employee_id := PyVal.int 7 } 0 2024 "new"
     (by decide) (by decide) (by decide) (by decide) (by decide) (by decide) (by decide)⟩

theorem setYear_err (o : ReviewObj) (v : PyVal) (h : yearOk v = false) :
    setYear o v = Except.error (Err.valueError "year must be an integer >= 2000") := by
  cases v with
  | int n =>
    have hn : n < 2000 := by
      unfold yearOk at h
      simpa using h
    unfold setYear
    dsimp only
    rw [if_pos hn]
  | str t => rfl
  | emp e => rfl
  | pynone => rfl

theorem setSummary_err (o : ReviewObj) (v : PyVal) (h : summaryOk v = false) :
    setSummary o v = Except.error (Err.valueError "summary must be a non-empty string") := by
  cases v with
  | int n => rfl
  | str t =>
    have ht : (pyStrip t).length = 0 := by
      unfold summaryOk at h
      simpa using h
    unfold setSummary
    dsimp only
    rw [if_pos ht]
  | emp e => rfl
  | pynone => rfl

theorem yearOk_int (v : PyVal) (h : yearOk v = true) :
    ∃ n : Int, v = PyVal.int n ∧ ¬ n < 2000 := by
  cases v with
  | int n =>
    refine ⟨n, rfl, ?_⟩
    unfold yearOk at h
    simpa using h
  | str t => exact absurd h (by simp [yearOk])
  | emp e => exact absurd h (by simp [yearOk])
  | pynone => exact absurd h (by simp [yearOk])

theorem summaryOk_str (v : PyVal) (h : summaryOk v = true) :
    ∃ t : String, v = PyVal.str t ∧ ¬ (pyStrip t).length = 0 := by
  cases v with
  | str t =>
    refine ⟨t, rfl, ?_⟩
    unfold summaryOk at h
    simpa using h
  | int n => exact absurd h (by simp [summaryOk])
  | emp e => exact absurd h (by simp [summaryOk])
  | pynone => exact absurd h (by simp [summaryOk])

theorem assignYear_err (s : S) (r : Ref) (v : PyVal) (h : yearOk v = false) :
    assignYear s r v =
      (Except.error (Err.valueError "year must be an integer >= 2000"), s) := by
  unfold assignYear
  rw [setYear_err _ _ h]

theorem assignYear_ok2 (s : S) (r : Ref) (n : Int) (hn : ¬ n < 2000) :
    assignYear s r (PyVal.int n) =
      (Except.ok (), s.setObj r { s.get r with year := some n }) := by
  unfold assignYear setYear
  dsimp only
  rw [if_neg hn]

theorem assignSummary_err (s : S) (r : Ref) (v : PyVal) (h : summaryOk v = false) :
    assignSummary s r v =
      (Except.error (Err.valueError "summary must be a non-empty string"), s) := by
  unfold assignSummary
  rw [setSummary_err _ _ h]

theorem assignSummary_ok2 (s : S) (r : Ref) (t : String)
    (ht : ¬ (pyStrip t).length = 0) :
    assignSummary s r (PyVal.str t) =
      (Except.ok (), s.setObj r { s.get r with summary := some t }) := by
  unfold assignSummary setSummary
  dsimp only
  rw [if_neg ht]

theorem assignEmployee_pynone (s : S) (r : Ref) :
    assignEmployee s r PyVal.pynone =
      (Except.error (Err.valueError "employee must be an Employee instance"), s) := rfl

theorem setYear_form (o : ReviewObj) (v : PyVal) :
    (∃ m, setYear o v = Except.error (Err.valueError m)) ∨
    (∃ o2, setYear o v = Except.ok o2) := by
  unfold setYear
  cases v with
  | int n =>
    by_cases hn : n < 2000
    · exact Or.inl ⟨_, by dsimp only; rw [if_pos hn]⟩
    · exact Or.inr ⟨_, by dsimp only; rw [if_neg hn]⟩
  | str t => exact Or.inl ⟨_, rfl⟩
  | emp e => exact Or.inl ⟨_, rfl⟩
  | pynone => exact Or.inl ⟨_, rfl⟩

theorem setSummary_form (o : ReviewObj) (v : PyVal) :
    (∃ m, setSummary o v = Except.error (Err.valueError m)) ∨
    (∃ o2, setSummary o v = Except.ok o2) := by
  unfold setSummary
  cases v with
  | str t =>
    by_cases ht : (pyStrip t).length = 0
    · exact Or.inl ⟨_, by dsimp only; rw [if_pos ht]⟩
    · exact Or.inr ⟨_, by dsimp only; rw [if_neg ht]⟩
  | int n => exact Or.inl ⟨_, rfl⟩
  | emp e => exact Or.inl ⟨_, rfl⟩
  | pynone => exact Or.inl ⟨_, rfl⟩

theorem setEmployee_form (emps : List Int) (o : ReviewObj) (v : PyVal) :
    (∃ m, setEmployee emps o v = Except.error (Err.valueError m)) ∨
    (∃ o2, setEmployee emps o v = Except.ok o2) := by
  unfold setEmployee
  cases v with
  | emp e =>
    cases he : e.id with
    | none => exact Or.inl ⟨_, by dsimp only; rw [he]⟩
    | some j => exact Or.inr ⟨_, by dsimp only; rw [he]⟩
  | int n =>
    cases hf : Employee.find_by_id emps n with
    | none => exact Or.inl ⟨_, by dsimp only; rw [hf]⟩
    | some e2 => exact Or.inr ⟨_, by dsimp only; rw [hf]⟩
  | str t => exact Or.inl ⟨_, rfl⟩
  | pynone => exact Or.inl ⟨_, rfl⟩

theorem assignYear_form (s : S) (r : Ref) (v : PyVal) :
    (∃ m, assignYear s r v = (Except.error (Err.valueError m), s)) ∨
    (∃ o, assignYear s r v = (Except.ok (), s.setObj r o)) := by
  unfold assignYear
  rcases setYear_form (s.get r) v with ⟨m, hm⟩ | ⟨o2, ho⟩
  · rw [hm]
    exact Or.inl ⟨m, rfl⟩
  · rw [ho]
    exact Or.inr ⟨o2, rfl⟩

theorem assignSummary_form (s : S) (r : Ref) (v : PyVal) :
    (∃ m, assignSummary s r v = (Except.error (Err.valueError m), s)) ∨
    (∃ o, assignSummary s r v = (Except.ok (), s.setObj r o)) := by
  unfold assignSummary
  rcases setSummary_form (s.get r) v with ⟨m, hm⟩ | ⟨o2, ho⟩
  · rw [hm]
    exact Or.inl ⟨m, rfl⟩
  · rw [ho]
    exact Or.inr ⟨o2, rfl⟩

theorem assignEmployee_form (s : S) (r : Ref) (v : PyVal) :
    (∃ m, assignEmployee s r v = (Except.error (Err.valueError m), s)) ∨
    (∃ o, assignEmployee s r v = (Except.ok (), s.setObj r o)) := by
  unfold assignEmployee
  rcases setEmployee_form s.emps (s.get r) v with ⟨m, hm⟩ | ⟨o2, ho⟩
  · rw [hm]
    exact Or.inl ⟨m, rfl⟩
  · rw [ho]
    exact Or.inr ⟨o2, rfl⟩

theorem init_master (s : S) (y sm e : PyVal) (i : Option Int) :
    ((Review.init s y sm e i).2).emps = s.emps ∧
    ((∃ r, (Review.init s y sm e i).1 = Except.ok r) ∨
     (∃ m, (Review.init s y sm e i).1 = Except.error (Err.valueError m))) := by
  unfold Review.init S.alloc
  dsimp only
  rcases assignYear_form { s with heap := s.heap ++ [ReviewObj.mk i none none none] }
      s.heap.length y with ⟨m, hA⟩ | ⟨o1, hA⟩
  · simp [hA]
  · rcases assignSummary_form
        ({ s with heap := s.heap ++ [ReviewObj.mk i none none none] }.setObj
          s.heap.length o1) s.heap.length sm with ⟨m, hB⟩ | ⟨o2, hB⟩
    · simp [hA, hB, setObj_emps]
    · rcases assignEmployee_form
          (({ s with heap := s.heap ++ [ReviewObj.mk i none none none] }.setObj
            s.heap.length o1).setObj s.heap.length o2) s.heap.length e with
        ⟨m, hC⟩ | ⟨o3, hC⟩
      · simp [hA, hB, hC, setObj_emps]
      · simp [hA, hB, hC, setObj_emps]

theorem ifdb_master (s : S) (row : Row) :
    ((Review.instance_from_db s row).2).emps = s.emps ∧
    ((∃ r, (Review.instance_from_db s row).1 = Except.ok r) ∨
     (∃ m, (Review.instance_from_db s row).1 = Except.error (Err.valueError m))) := by
  unfold Review.instance_from_db
  dsimp only
  cases hc : dictGet s.cache (some row.id) with
  | some r =>
    dsimp only
    rcases assignYear_form s r row.year with ⟨m, hA⟩ | ⟨o1, hA⟩
    · simp [hA]
    · rcases assignSummary_form (s.setObj r o1) r row.summary with ⟨m, hB⟩ | ⟨o2, hB⟩
      · simp [hA, hB, setObj_emps]
      · rcases assignEmployee_form ((s.setObj r o1).setObj r o2) r
            (empVal (Employee.find_by_id_val s.emps row.employee_id)) with
          ⟨m, hC⟩ | ⟨o3, hC⟩
        · simp [hA, hB, hC, setObj_emps]
        · simp [hA, hB, hC, setObj_emps]
  | none =>
    dsimp only
    obtain ⟨hemps, hform⟩ := init_master s row.year row.summary
        (empVal (Employee.find_by_id_val s.emps row.employee_id)) (some row.id)
    cases hI : Review.init s row.year row.summary
        (empVal (Employee.find_by_id_val s.emps row.employee_id)) (some row.id) with
    | mk res s1 =>
      rw [hI] at hemps hform
      dsimp only at hemps hform
      cases res with
      | error e =>
        rcases hform with ⟨r2, hr2⟩ | ⟨m, hm⟩
        · simp at hr2
        · dsimp only
          have he : e = Err.valueError m := by simpa using hm
          subst he
          exact ⟨hemps, Or.inr ⟨m, rfl⟩⟩
      | ok r2 =>
        dsimp only
        exact ⟨hemps, Or.inl ⟨r2, rfl⟩⟩

theorem ifdb_bad (s : S) (row : Row)
    (hbad : yearOk row.year = false ∨ summaryOk row.summary = false ∨
            Employee.find_by_id_val s.emps row.employee_id = none) :
    ∃ m, (Review.instance_from_db s row).1 = Except.error (Err.valueError m) := by
  unfold Review.instance_from_db
  dsimp only
  cases hc : dictGet s.cache (some row.id) with
  | some r =>
    dsimp only
    cases hyv : yearOk row.year with
    | false => simp [assignYear_err s r row.year hyv]
    | true =>
      obtain ⟨n, hvn, hn⟩ := yearOk_int row.year hyv
      rw [hvn]
      cases hsv : summaryOk row.summary with
      | false =>
        simp [assignYear_ok2, hn, assignSummary_err, hsv]
      | true =>
        obtain ⟨t, hvt, ht⟩ := summaryOk_str row.summary hsv
        rw [hvt]
        have hemp : Employee.find_by_id_val s.emps row.employee_id = none := by
          rcases hbad with hb | hb | hb
          · rw [hyv] at hb
            exact absurd hb (by simp)
          · rw [hsv] at hb
            exact absurd hb (by simp)
          · exact hb
        simp [assignYear_ok2, hn, assignSummary_ok2, ht, hemp, empVal,
              assignEmployee_pynone]
  | none =>
    dsimp only
    unfold Review.init S.alloc
    dsimp only
    cases hyv : yearOk row.year with
    | false => simp [assignYear_err _ _ row.year hyv]
    | true =>
      obtain ⟨n, hvn, hn⟩ := yearOk_int row.year hyv
      rw [hvn]
      cases hsv : summaryOk row.summary with
      | false =>
        simp [assignYear_ok2, hn, assignSummary_err, hsv]
      | true =>
        obtain ⟨t, hvt, ht⟩ := summaryOk_str row.summary hsv
        rw [hvt]
        have hemp : Employee.find_by_id_val s.emps row.employee_id = none := by
          rcases hbad with hb | hb | hb
          · rw [hyv] at hb
            exact absurd hb (by simp)
          · rw [hsv] at hb
            exact absurd hb (by simp)
          · exact hb
        simp [assignYear_ok2, hn, assignSummary_ok2, ht, hemp, empVal,
              assignEmployee_pynone]

theorem hydrateAll_bad (rows : List Row) : ∀ s : S, ∀ row : Row, row ∈ rows →
    (yearOk row.year = false ∨ summaryOk row.summary = false ∨
     Employee.find_by_id_val s.emps row.employee_id = none) →
    ∃ m, (hydrateAll s rows).1 = Except.error (Err.valueError m) := by
  induction rows with
  | nil =>
    intro s row h _
    simp at h
  | cons x xs ih =>
    intro s row hmem hbad
    unfold hydrateAll
    obtain ⟨hemps, hform⟩ := ifdb_master s x
    cases hI : Review.instance_from_db s x with
    | mk res s1 =>
      rw [hI] at hemps hform
      dsimp only at hemps hform
      cases res with
      | error e =>
        dsimp only
        rcases hform with ⟨r2, h2⟩ | ⟨m, hm⟩
        · exact absurd h2 (by simp)
        · have he : e = Err.valueError m := by simpa using hm
          subst he
          exact ⟨m, rfl⟩
      | ok r2 =>
        dsimp only
        rcases List.mem_cons.mp hmem with heq | hmem2
        · subst heq
          obtain ⟨m, hm⟩ := ifdb_bad s row hbad
          rw [hI] at hm
          dsimp only at hm
          exact absurd hm (by simp)
        · obtain ⟨m, hm⟩ := ih s1 row hmem2 (by rw [hemps]; exact hbad)
          cases hH : hydrateAll s1 xs with
          | mk res2 s2 =>
            rw [hH] at hm
            dsimp only at hm
            cases res2 with
            | error e2 =>
              dsimp only
              have he2 : e2 = Err.valueError m := by simpa using hm
              subst he2
              exact ⟨m, rfl⟩
            | ok rs =>
              exact absurd hm (by simp)

/-- C9: hydration re-runs field validation on raw row data: a stored row
whose year column is invalid (not an integer or below 2000), whose summary
column is invalid (not a string or blank after stripping), or whose
employee_id does not resolve to a persisted Employee, makes
InstanceFromRow raise ValueError instead of returning an instance; FindById
reaching such a row raises likewise, as does GetAll over a table containing
such a row. -/
theorem hydration_revalidates (s : S) (row : Row)
    (hbad : yearOk row.year = false ∨ summaryOk row.summary = false ∨
            Employee.find_by_id_val s.emps row.employee_id = none) :
    (∃ m, (Review.instance_from_db s row).1 = Except.error (Err.valueError m)) ∧
    (∀ j : Int, s.rows.find? (fun rw => rw.id == j) = some row →
       ∃ m, (Review.find_by_id s j).1 = Except.error (Err.valueError m)) ∧
    (row ∈ s.rows →
       ∃ m, (Review.get_all s).1 = Except.error (Err.valueError m)) := by
  refine ⟨ifdb_bad s row hbad, ?_, ?_⟩
  · intro j hfind
    unfold Review.find_by_id
    rw [hfind]
    dsimp only
    obtain ⟨m, hm⟩ := ifdb_bad s row hbad
    cases hI : Review.instance_from_db s row with
    | mk res s1 =>
      rw [hI] at hm
      dsimp only at hm
      cases res with
      | error e =>
        have he : e = Err.valueError m := by simpa using hm
        subst he
        exact ⟨m, rfl⟩
      | ok r2 =>
        exact absurd hm (by simp)
  · intro hmem
    unfold Review.get_all
    exact hydrateAll_bad s.rows s row hmem hbad

/-- Witness for C9: hydrating the year-1999 row raises everywhere. -/
theorem hydration_revalidates_witness :
    (yearOk badRow.year = false ∨ summaryOk badRow.summary = false ∨
     Employee.find_by_id_val badS.emps badRow.employee_id = none) ∧
    ((∃ m, (Review.instance_from_db badS badRow).1
        = Except.error (Err.valueError m)) ∧
     (∀ j : Int, badS.rows.find? (fun rw => rw.id == j) = some badRow →
        ∃ m, (Review.find_by_id badS j).1 = Except.error (Err.valueError m)) ∧
     (badRow ∈ badS.rows →
        ∃ m, (Review.get_all badS).1 = Except.error (Err.valueError m))) :=
  ⟨by decide, hydration_revalidates badS badRow (by decide)⟩
